import Mathlib

/-!
Verification of the `pypi_uploader` repository against its specification.

The Python sources are shallowly embedded below.  Python strings that may
be `None` are modelled as `Option String`; Python dictionaries with string
keys are modelled as association lists; the filesystem and the HTTP layer
are modelled as explicit function parameters, and the observable side
effects of `upload` (file reads, HTTP posts) are returned as an explicit
trace.  Exceptions are modelled with `Except`.
-/

/-- Python truthiness for a string-or-None value: `None` and `''` are falsy. -/
def truthy : Option String → Bool
  | none => false
  | some s => s ≠ ""

/-- Python `str(x)` for a string-or-None value, as used by `'...'.format(x)`. -/
def pyStr : Option String → String
  | none => "None"
  | some s => s

/-- POSIX `os.path.basename`: everything after the last slash,
`p[p.rfind('/') + 1:]`. -/
def basename (p : String) : String :=
  ⟨(p.data.reverse.takeWhile (fun c => c ≠ '/')).reverse⟩

/-- Errors raised by the embedded Python code.
`configFileError` models `exceptions.ConfigFileError`, `noSection` and
`noOption` model `configparser.NoSectionError` / `NoOptionError`, and
`keyError` models a dictionary `KeyError`. -/
inductive PyError where
  | configFileError (path : String)
  | noSection (s : String)
  | noOption (sec opt : String)
  | keyError (k : String)
deriving Repr, DecidableEq

/-- An HTTP response: status code and reason phrase. -/
structure Response where
  status_code : Nat
  reason : String
deriving Repr, DecidableEq

/-- A multipart POST request as assembled by `requests.Session.post`:
the target url, the form data fields, and the files parts
(name, (filename, raw bytes)). -/
structure PostRequest where
  url : Option String
  data : List (String × String)
  files : List (String × (String × List Nat))
deriving Repr, DecidableEq

/-- The observable outcome of `PackageUploader.upload`:
a normal return of the response, a raised
`exceptions.PackageConflictError` with its message, or a raised
`requests.HTTPError` carrying the response's status code and reason. -/
inductive UploadResult where
  | success (r : Response)
  | conflict (msg : String)
  | httpError (status : Nat) (reason : String)
deriving Repr, DecidableEq

/-- An observable side effect of `upload`: a read of a file path, or an
HTTP POST of a request. -/
inductive Effect where
  | read (path : String)
  | post (req : PostRequest)
deriving Repr, DecidableEq

/-- The state of a `PackageUploader` instance: `host`, `username`,
`password`, the `_data` dict, and the session's auth setting. -/
structure PackageUploader where
  host : Option String
  username : Option String
  password : Option String
  data : List (String × String)
  auth : Option (Option String × Option String)
deriving Repr, DecidableEq

namespace PackageUploader

/-- Constructor `PackageUploader.__init__`: stores host and credentials, sets
`_data = {':action': 'file_upload'}` and sets the session's basic auth to
`(username, password)` when `username` is truthy. -/
def init (host username password : Option String) : PackageUploader :=
  { host := host
    username := username
    password := password
    data := [(":action", "file_upload")]
    auth := if truthy username then some (username, password) else none }

/-- Method `PackageUploader._make_request_files`: builds the files dict
`{'content': (basename(filepath), content)}` from the bytes read. -/
def make_request_files (filepath : String) (content : List Nat) :
    List (String × (String × List Nat)) :=
  [("content", (basename filepath, content))]

/-- Method `PackageUploader._raise_for_status`, composed with
`requests.Response.raise_for_status` which raises `HTTPError` exactly for
status codes in `[400, 600)`: a 409 becomes `PackageConflictError`
with the full file path in the message, any other 4xx/5xx re-raises the
`HTTPError`, and everything else returns the response unchanged. -/
def raise_for_status (response : Response) (filepath : String) : UploadResult :=
  if 400 ≤ response.status_code ∧ response.status_code < 600 then
    if response.status_code = 409 then
      .conflict ("Package " ++ filepath ++ " already uploaded.")
    else
      .httpError response.status_code response.reason
  else
    .success response

/-- Method `PackageUploader.upload`: reads the file, posts
`self._data` together with the files part to `self.host`, and interprets
the response status.  `fs` models the filesystem (path to raw bytes) and
`server` models the HTTP layer (request to response); the returned list is
the trace of side effects in order, and the returned `PackageUploader` is
the state of the instance after the call. -/
def upload (self : PackageUploader) (fs : String → List Nat)
    (server : PostRequest → Response) (filepath : String) :
    PackageUploader × UploadResult × List Effect :=
  let content := fs filepath
  let files := make_request_files filepath content
  let req : PostRequest := ⟨self.host, self.data, files⟩
  let response := server req
  let result := raise_for_status response filepath
  (self, result, [.read filepath, .post req])

end PackageUploader

/-- A Python dict with string keys and string-or-None values, such as the
repository configuration dicts `{'repository': ..., 'username': ...,
'password': ...}`.  Lookup of a missing key raises `KeyError`. -/
def RepoConfig : Type := List (String × Option String)

/-- Subscript `d[k]` on a Python dict: the value, or a raised `KeyError`. -/
def dictGet (d : RepoConfig) (k : String) : Except PyError (Option String) :=
  match List.lookup k d with
  | some v => .ok v
  | none => .error (.keyError k)

namespace PackageUploader

/-- Classmethod `PackageUploader.from_repository_config`:
`host = repo_config['repository']`,
`username = username or repo_config['username']`,
`password = password or repo_config['password']`,
then `cls(host, username, password)`.  A falsy explicit argument falls
back to the dict entry, whose lookup may raise `KeyError`. -/
def from_repository_config (repo_config : RepoConfig)
    (username password : Option String) :
    Except PyError PackageUploader := do
  let host ← dictGet repo_config "repository"
  let username ←
    if truthy username then .ok username else dictGet repo_config "username"
  let password ←
    if truthy password then .ok password else dictGet repo_config "password"
  .ok (init host username password)

end PackageUploader

/-! ## The `pypirc` module

The file `pypiuploader/pypirc.py` is not part of the sources available
here: only its tests (`tests/test_pypirc.py`) and its caller
(`PackageUploader.from_rc_file`) are.  Its operations are therefore
modelled from the spec, as noted on each definition. -/

/-- A parsed ini-style config document (`configparser.ConfigParser`):
sections, each a list of option/value pairs. -/
def ConfigDoc : Type := List (String × List (String × String))

/-- The options of a named section, if the section exists. -/
def findSection (doc : ConfigDoc) (sec : String) :
    Option (List (String × String)) :=
  List.lookup sec doc

/-- Lookup `ConfigParser.get(sec, opt)`: the option's value, or a raised
`NoSectionError` / `NoOptionError`. -/
def configGet (doc : ConfigDoc) (sec opt : String) : Except PyError String :=
  match findSection doc sec with
  | none => .error (.noSection sec)
  | some opts =>
    match List.lookup opt opts with
    | none => .error (.noOption sec opt)
    | some v => .ok v

/-- Python `str.split()` with no arguments: the maximal runs of
non-whitespace characters, in order; blank entries never occur.
`acc` holds the current token's characters in reverse. -/
def pySplitAux : List Char → List Char → List String
  | [], acc => if acc.isEmpty then [] else [⟨acc.reverse⟩]
  | c :: rest, acc =>
    if c.isWhitespace then
      if acc.isEmpty then pySplitAux rest []
      else ⟨acc.reverse⟩ :: pySplitAux rest []
    else
      pySplitAux rest (c :: acc)

/-- Python `str.split()` with no arguments. -/
def pySplit (s : String) : List String :=
  pySplitAux s.data []

namespace pypirc

/-- Modelled from the spec: `RCParser._read_index_servers` of the missing
`pypiuploader/pypirc.py`.  Reads the reserved `index-servers` entry of the
reserved `distutils` section; an absent `distutils` section yields an
empty sequence, a present section without the entry raises
`NoOptionError`; entries are whitespace separated, blanks skipped, order
preserved. -/
def read_index_servers (doc : ConfigDoc) : Except PyError (List String) :=
  match findSection doc "distutils" with
  | none => .ok []
  | some opts =>
    match List.lookup "index-servers" opts with
    | none => .error (.noOption "distutils" "index-servers")
    | some v => .ok (pySplit v)

/-- Modelled from the spec: `RCParser._read_server_auth` of the missing
`pypiuploader/pypirc.py`.  Reads the required `username` and optional
`password` keys of the server's section. -/
def read_server_auth (doc : ConfigDoc) (server : String) :
    Except PyError (String × Option String) := do
  let username ← configGet doc server "username"
  let password := (findSection doc server).bind (List.lookup "password")
  .ok (username, password)

/-- Modelled from the spec: the RepositoryConfig dict built for one
declared server, from its section's required `repository` key and its
credentials. -/
def buildRepoConfig (doc : ConfigDoc) (server : String) :
    Except PyError RepoConfig := do
  let repo ← configGet doc server "repository"
  let auth ← read_server_auth doc server
  .ok [("repository", some repo), ("username", some auth.1),
       ("password", auth.2)]

/-- Modelled from the spec: the reverse-URL scan of
`RCParser._find_repo_config` — the first declared server whose section's
`repository` value equals the given identifier. -/
def scanRepos (doc : ConfigDoc) (repository : String) :
    List String → Except PyError (Option String)
  | [] => .ok none
  | s :: rest => do
    let r ← configGet doc s "repository"
    if r = repository then .ok (some s) else scanRepos doc repository rest

/-- Modelled from the spec: `RCParser._find_repo_config` of the missing
`pypiuploader/pypirc.py`.  A declared server name match takes precedence;
otherwise the declared servers' `repository` values are scanned for an
exact match; otherwise absent. -/
def find_repo_config (doc : ConfigDoc) (servers : List String)
    (repository : String) : Except PyError (Option RepoConfig) :=
  if repository ∈ servers then do
    let config ← buildRepoConfig doc repository
    .ok (some config)
  else do
    match ← scanRepos doc repository servers with
    | some s => do
      let config ← buildRepoConfig doc s
      .ok (some config)
    | none => .ok none

/-- Modelled from the spec: `RCParser.get_repository_config` of the
missing `pypiuploader/pypirc.py` — list the declared servers, then
resolve the repository identifier against them. -/
def get_repository_config (doc : ConfigDoc) (repository : String) :
    Except PyError (Option RepoConfig) := do
  let servers ← read_index_servers doc
  find_repo_config doc servers repository

end pypirc

namespace PackageUploader

/-- Python truthiness of the resolved config (`if config:`): a dict is
truthy exactly when nonempty; `None` is falsy. -/
def configTruthy : Option RepoConfig → Bool
  | none => false
  | some l => !l.isEmpty

/-- Classmethod `PackageUploader.from_rc_file`: `load` is the outcome of
`pypirc.RCParser.from_file(config_path)` (a parsed document, or a raised
error).  Only `ConfigFileError` is caught (yielding `config = None`);
with a parsed document, `get_repository_config` runs and its errors
propagate.  A truthy config goes through `from_repository_config` with
the explicit credentials as overrides; otherwise the repository
identifier itself becomes the host. -/
def from_rc_file (load : Except PyError ConfigDoc) (repository : String)
    (username password : Option String) :
    Except PyError PackageUploader := do
  let config : Option RepoConfig ←
    match load with
    | .error (.configFileError _) => .ok none
    | .error e => .error e
    | .ok doc => pypirc.get_repository_config doc repository
  if configTruthy config then
    from_repository_config (config.getD []) username password
  else
    .ok (init (some repository) username password)

end PackageUploader

/-! ## The batch command (`pypiuploader/commands.py`) -/

namespace Command

/-- Method `Command._upload_file`: prints `Uploading {f}... `, attempts the
upload, prints `already uploaded.` on `PackageConflictError` and
`success.` on a normal return; any other error propagates after the
first message.  `res` gives the outcome of `uploader.upload` for each
file; the result is the printed messages and the propagated HTTP error,
if any. -/
def upload_file (res : String → UploadResult) (filename : String) :
    List String × Option (Nat × String) :=
  let heading := "Uploading " ++ filename ++ "... "
  match res filename with
  | .success _ => ([heading, "success.\n"], none)
  | .conflict _ => ([heading, "already uploaded.\n"], none)
  | .httpError status reason => ([heading], some (status, reason))

/-- The outcome of a batch: the messages printed in order, the files for
which an upload was attempted in order, and the HTTP error that aborted
the batch, if any. -/
structure BatchResult where
  output : List String
  attempted : List String
  error : Option (Nat × String)
deriving Repr, DecidableEq

/-- The loop of `Command._upload_files` over the file names: each file is
processed in turn by `upload_file`; a propagated error aborts the rest. -/
def uploadLoop (res : String → UploadResult) : List String → BatchResult
  | [] => ⟨[], [], none⟩
  | f :: rest =>
    match upload_file res f with
    | (msgs, some e) => ⟨msgs, [f], some e⟩
    | (msgs, none) =>
      let r := uploadLoop res rest
      ⟨msgs ++ r.output, f :: r.attempted, r.error⟩

/-- Method `Command._upload_files`: prints the heading with the uploader's host,
then runs the loop. -/
def upload_files (host : Option String) (res : String → UploadResult)
    (filenames : List String) : BatchResult :=
  let r := uploadLoop res filenames
  ⟨("Uploading packages to " ++ pyStr host ++ "\n") :: r.output,
   r.attempted, r.error⟩

end Command

/-! ## Helper lemmas -/

theorem ok_bind {α β : Type} (a : α) (f : α → Except PyError β) :
    (Except.ok a >>= f) = f a := rfl

theorem error_bind {α β : Type} (e : PyError) (f : α → Except PyError β) :
    (Except.error e >>= f) = Except.error e := rfl

/-- A string made of a nonempty character list is not the empty string. -/
theorem mk_ne_blank (l : List Char) (h : l ≠ []) : String.mk l ≠ "" :=
  fun hc => h (congrArg String.data hc)

/-- A non-whitespace character goes onto the accumulator. -/
theorem pySplitAux_nonws (c : Char) (hc : c.isWhitespace = false)
    (l acc : List Char) :
    pySplitAux (c :: l) acc = pySplitAux l (c :: acc) := by
  simp [pySplitAux, hc]

/-- A whitespace character is skipped over an empty accumulator. -/
theorem pySplitAux_skip (c : Char) (hc : c.isWhitespace = true)
    (l : List Char) :
    pySplitAux (c :: l) [] = pySplitAux l [] := by
  simp [pySplitAux, hc]

/-- A whitespace character flushes a nonempty accumulator as one token. -/
theorem pySplitAux_flush (c : Char) (hc : c.isWhitespace = true)
    (l acc : List Char) (hacc : acc ≠ []) :
    pySplitAux (c :: l) acc = ⟨acc.reverse⟩ :: pySplitAux l [] := by
  have he : acc.isEmpty = false := by
    cases acc with
    | nil => exact absurd rfl hacc
    | cons a as => rfl
  simp [pySplitAux, hc, he]

/-- Every token produced by `pySplitAux` is nonblank. -/
theorem pySplitAux_ne_blank (l : List Char) :
    ∀ acc t, t ∈ pySplitAux l acc → t ≠ "" := by
  induction l with
  | nil =>
    intro acc t ht
    cases acc with
    | nil => simp [pySplitAux] at ht
    | cons a as =>
      simp only [pySplitAux, List.isEmpty_cons, if_false, List.mem_singleton,
        Bool.false_eq_true] at ht
      subst ht
      exact mk_ne_blank _ (by simp)
  | cons c rest ih =>
    intro acc t ht
    cases hcw : c.isWhitespace with
    | false =>
      rw [pySplitAux_nonws c hcw] at ht
      exact ih (c :: acc) t ht
    | true =>
      cases acc with
      | nil =>
        rw [pySplitAux_skip c hcw] at ht
        exact ih [] t ht
      | cons a as =>
        rw [pySplitAux_flush c hcw rest (a :: as) (by simp)] at ht
        rcases List.mem_cons.1 ht with h1 | h1
        · subst h1
          exact mk_ne_blank _ (by simp)
        · exact ih [] t h1

/-- Helper `pySplitAux` consumes a run of non-whitespace characters into the
accumulator. -/
theorem pySplitAux_token (tc : List Char)
    (h : ∀ c ∈ tc, c.isWhitespace = false) :
    ∀ l acc, pySplitAux (tc ++ l) acc = pySplitAux l (tc.reverse ++ acc) := by
  induction tc with
  | nil => intro l acc; rfl
  | cons c tc ih =>
    intro l acc
    rw [List.cons_append, pySplitAux_nonws c (h c (by simp)),
      ih (fun x hx => h x (by simp [hx])) l (c :: acc)]
    simp

/-- The declared entries written out whitespace-separated, as in an
`index-servers` value: one per line, indented, with a blank line's worth
of extra whitespace between them. -/
def joinTokens : List String → String
  | [] => ""
  | [t] => t
  | t :: ts => t ++ "\n  " ++ joinTokens ts

/-- Reading back whitespace-joined nonblank tokens gives exactly the
declared sequence, in order. -/
theorem pySplit_joinTokens (ts : List String)
    (h : ∀ t ∈ ts, t ≠ "" ∧ ∀ ch ∈ t.data, ch.isWhitespace = false) :
    pySplit (joinTokens ts) = ts := by
  induction ts with
  | nil => rfl
  | cons t ts ih =>
    obtain ⟨hne, hnws⟩ := h t (by simp)
    have hdata : t.data ≠ [] := fun hd => hne (String.ext hd)
    cases ts with
    | nil =>
      show pySplitAux t.data [] = [t]
      have h0 : pySplitAux t.data [] = pySplitAux (t.data ++ []) [] := by
        rw [List.append_nil]
      rw [h0, pySplitAux_token t.data hnws [] []]
      have he : (t.data.reverse ++ []).isEmpty = false := by
        simp [List.isEmpty_eq_true, hdata]
      simp only [pySplitAux, he, if_false, Bool.false_eq_true]
      simp
    | cons u us =>
      show pySplitAux (t ++ "\n  " ++ joinTokens (u :: us)).data [] = t :: u :: us
      have hd2 : (t ++ "\n  " ++ joinTokens (u :: us)).data =
          t.data ++ ('\n' :: ' ' :: ' ' :: (joinTokens (u :: us)).data) := by
        rw [String.data_append, String.data_append]
        have hlit : ("\n  " : String).data = ['\n', ' ', ' '] := rfl
        rw [hlit, List.append_assoc]
        rfl
      rw [hd2, pySplitAux_token t.data hnws _ [], List.append_nil]
      rw [pySplitAux_flush '\n' (by decide) _ _ (by simpa using hdata)]
      rw [pySplitAux_skip ' ' (by decide), pySplitAux_skip ' ' (by decide)]
      have hih := ih (fun x hx => h x (by simp [hx]))
      unfold pySplit at hih
      rw [hih]
      congr 1
      exact String.ext (by simp)

/-! ## Claims about `PackageUploader.upload` -/

/-- C1: `upload(p)` issues exactly one file read and one HTTP POST, in that
order; the POST goes to the configured host with form data exactly
`{':action': 'file_upload'}` and one files part `'content'` carrying
`(basename(p), raw bytes of p)`; and on a 2xx response the response is
returned unchanged. -/
theorem upload_wire_protocol (host username password : Option String)
    (fs : String → List Nat) (server : PostRequest → Response) (p : String) :
    ((PackageUploader.init host username password).upload fs server p).2.2 =
      [Effect.read p,
       Effect.post (PostRequest.mk host [(":action", "file_upload")]
         [("content", (basename p, fs p))])] ∧
    (200 ≤ (server (PostRequest.mk host [(":action", "file_upload")]
        [("content", (basename p, fs p))])).status_code ∧
      (server (PostRequest.mk host [(":action", "file_upload")]
        [("content", (basename p, fs p))])).status_code < 300 →
      ((PackageUploader.init host username password).upload fs server p).2.1 =
        UploadResult.success (server (PostRequest.mk host
          [(":action", "file_upload")] [("content", (basename p, fs p))]))) := by
  constructor
  · rfl
  · intro h
    show PackageUploader.raise_for_status
      (server (PostRequest.mk host [(":action", "file_upload")]
        [("content", (basename p, fs p))])) p = _
    unfold PackageUploader.raise_for_status
    rw [if_neg (by omega)]

/-- Witness for C1 at a concrete uploader, filesystem, server and path. -/
theorem upload_wire_protocol_witness :
    ((PackageUploader.init (some "http://h") (some "u") (some "s")).upload
      (fun _ => [1, 2, 3]) (fun _ => ⟨201, "Created"⟩) "dist/pkg-1.0.tar.gz").2.1 =
      UploadResult.success ⟨201, "Created"⟩ :=
  (upload_wire_protocol (some "http://h") (some "u") (some "s")
    (fun _ => [1, 2, 3]) (fun _ => ⟨201, "Created"⟩) "dist/pkg-1.0.tar.gz").2
    (by constructor <;> decide)

/-- C2: when the POST issued by `upload(p)` receives HTTP status 409, the
call raises `PackageConflictError` with message exactly
`Package {p} already uploaded.` for the full path argument `p`, and no
HTTP-layer error escapes. -/
theorem upload_conflict_on_409 (self : PackageUploader) (fs : String → List Nat)
    (server : PostRequest → Response) (p : String)
    (h : (server (PostRequest.mk self.host self.data
      (PackageUploader.make_request_files p (fs p)))).status_code = 409) :
    (self.upload fs server p).2.1 =
      UploadResult.conflict ("Package " ++ p ++ " already uploaded.") := by
  show PackageUploader.raise_for_status
    (server (PostRequest.mk self.host self.data
      (PackageUploader.make_request_files p (fs p)))) p = _
  unfold PackageUploader.raise_for_status
  rw [h]
  norm_num

/-- Witness for C2: a server answering 409 at a concrete path. -/
theorem upload_conflict_on_409_witness :
    ((PackageUploader.init (some "http://h") none none).upload (fun _ => [7])
      (fun _ => ⟨409, "Conflict"⟩) "dist/pkg-1.0.tar.gz").2.1 =
      UploadResult.conflict "Package dist/pkg-1.0.tar.gz already uploaded." :=
  upload_conflict_on_409 (PackageUploader.init (some "http://h") none none)
    (fun _ => [7]) (fun _ => ⟨409, "Conflict"⟩) "dist/pkg-1.0.tar.gz" rfl

/-- C3 counterexample: a 304 response is not a 2xx and not a 409, yet
`upload` returns it as a success instead of raising an HTTP error —
`requests` raises only for status codes in `[400, 600)`. -/
theorem upload_304_counterexample :
    ((PackageUploader.init (some "http://h") none none).upload (fun _ => [7])
      (fun _ => ⟨304, "Not Modified"⟩) "pkg-1.0.tar.gz").2.1 =
      UploadResult.success ⟨304, "Not Modified"⟩ ∧
    ((PackageUploader.init (some "http://h") none none).upload (fun _ => [7])
      (fun _ => ⟨304, "Not Modified"⟩) "pkg-1.0.tar.gz").2.1 ≠
      UploadResult.httpError 304 "Not Modified" :=
  ⟨rfl, by decide⟩

/-- C3 as amended: for every response whose status is in `[400, 600)` and
is not 409, `upload` raises the HTTP error carrying that response's
status code and reason phrase, unconverted. -/
theorem upload_http_error_propagates (self : PackageUploader)
    (fs : String → List Nat) (server : PostRequest → Response) (p : String)
    (h400 : 400 ≤ (server (PostRequest.mk self.host self.data
      (PackageUploader.make_request_files p (fs p)))).status_code)
    (h600 : (server (PostRequest.mk self.host self.data
      (PackageUploader.make_request_files p (fs p)))).status_code < 600)
    (h409 : (server (PostRequest.mk self.host self.data
      (PackageUploader.make_request_files p (fs p)))).status_code ≠ 409) :
    (self.upload fs server p).2.1 =
      UploadResult.httpError
        (server (PostRequest.mk self.host self.data
          (PackageUploader.make_request_files p (fs p)))).status_code
        (server (PostRequest.mk self.host self.data
          (PackageUploader.make_request_files p (fs p)))).reason := by
  show PackageUploader.raise_for_status
    (server (PostRequest.mk self.host self.data
      (PackageUploader.make_request_files p (fs p)))) p = _
  unfold PackageUploader.raise_for_status
  rw [if_pos ⟨h400, h600⟩, if_neg h409]

/-- Witness for the amended C3: a server answering 500. -/
theorem upload_http_error_propagates_witness :
    ((PackageUploader.init (some "http://h") none none).upload (fun _ => [7])
      (fun _ => ⟨500, "Internal Server Error"⟩) "pkg-1.0.tar.gz").2.1 =
      UploadResult.httpError 500 "Internal Server Error" :=
  upload_http_error_propagates (PackageUploader.init (some "http://h") none none)
    (fun _ => [7]) (fun _ => ⟨500, "Internal Server Error"⟩) "pkg-1.0.tar.gz"
    (by decide) (by decide) (by decide)

/-- C10: `upload` never mutates the instance: host, username, password and
the fixed `_data` dict are all unchanged by the call, whatever its
outcome, so repeated uploads target the same host with the same
credentials. -/
theorem upload_preserves_instance_state (self : PackageUploader)
    (fs : String → List Nat) (server : PostRequest → Response) (p : String) :
    (self.upload fs server p).1 = self ∧
    (self.upload fs server p).1.host = self.host ∧
    (self.upload fs server p).1.username = self.username ∧
    (self.upload fs server p).1.password = self.password ∧
    (self.upload fs server p).1.data = self.data :=
  ⟨rfl, rfl, rfl, rfl, rfl⟩

/-! ## Claims about `PackageUploader.from_repository_config` -/

/-- C4: the uploader built from a repository config dict has
`host = c['repository']`, `username = u` when `u` is truthy and otherwise
`c['username']`, and `password = w` when `w` is truthy and otherwise
`c['password']` — each field overridden independently. -/
theorem from_repository_config_fields (c : RepoConfig) (u w rv uv wv : Option String)
    (hr : List.lookup "repository" c = some rv)
    (hu : List.lookup "username" c = some uv)
    (hw : List.lookup "password" c = some wv) :
    PackageUploader.from_repository_config c u w =
      Except.ok (PackageUploader.init rv (if truthy u then u else uv)
        (if truthy w then w else wv)) := by
  cases hu' : truthy u <;> cases hw' : truthy w <;>
    simp only [PackageUploader.from_repository_config, dictGet, hr, hu, hw,
      hu', hw', if_true, if_false, Bool.false_eq_true, Bool.true_eq_false,
      ite_true, ite_false] <;> rfl

/-- Witness for C4: overriding only the username leaves the password
sourced from the config dict. -/
theorem from_repository_config_fields_witness :
    PackageUploader.from_repository_config
      [("repository", some "http://localhost:8000"), ("username", some "foo"),
       ("password", some "bar")] (some "override") none =
      Except.ok (PackageUploader.init (some "http://localhost:8000")
        (some "override") (some "bar")) :=
  from_repository_config_fields
    [("repository", some "http://localhost:8000"), ("username", some "foo"),
     ("password", some "bar")] (some "override") none
    (some "http://localhost:8000") (some "foo") (some "bar") rfl rfl rfl

/-- C9: with truthy explicit username and password the dict's `username`
and `password` entries are never read, so a dict lacking them still
constructs; with a falsy explicit username (resp. password) and the
corresponding key missing, construction fails with that `KeyError`; and
the `repository` key is unconditionally required. -/
theorem from_repository_config_key_usage (c : RepoConfig) (u w : Option String)
    (su sw : String) (rv : Option String) :
    (su ≠ "" → sw ≠ "" → List.lookup "repository" c = some rv →
      PackageUploader.from_repository_config c (some su) (some sw) =
        Except.ok (PackageUploader.init rv (some su) (some sw))) ∧
    (truthy u = false → List.lookup "repository" c = some rv →
      List.lookup "username" c = none →
      PackageUploader.from_repository_config c u w =
        Except.error (PyError.keyError "username")) ∧
    (su ≠ "" → truthy w = false → List.lookup "repository" c = some rv →
      List.lookup "password" c = none →
      PackageUploader.from_repository_config c (some su) w =
        Except.error (PyError.keyError "password")) ∧
    (List.lookup "repository" c = none →
      PackageUploader.from_repository_config c u w =
        Except.error (PyError.keyError "repository")) := by
  refine ⟨?_, ?_, ?_, ?_⟩
  · intro hsu hsw hr
    have htu : truthy (some su) = true := by simp [truthy, hsu]
    have htw : truthy (some sw) = true := by simp [truthy, hsw]
    simp only [PackageUploader.from_repository_config, dictGet, hr, htu, htw,
      ite_true]
    rfl
  · intro hu hr hun
    simp only [PackageUploader.from_repository_config, dictGet, hr, hu, hun,
      Bool.false_eq_true, ite_false]
    rfl
  · intro hsu hw hr hwn
    have htu : truthy (some su) = true := by simp [truthy, hsu]
    simp only [PackageUploader.from_repository_config, dictGet, hr, htu, hw,
      hwn, ite_true, Bool.false_eq_true, ite_false]
    rfl
  · intro hrn
    simp only [PackageUploader.from_repository_config, dictGet, hrn]
    rfl

/-- Witness for C9: a dict holding only the `repository` key constructs
successfully when both explicit credentials are truthy. -/
theorem from_repository_config_key_usage_witness :
    PackageUploader.from_repository_config
      [("repository", some "http://localhost:8000")] (some "u") (some "s") =
      Except.ok (PackageUploader.init (some "http://localhost:8000")
        (some "u") (some "s")) :=
  (from_repository_config_key_usage
    [("repository", some "http://localhost:8000")] none none "u" "s"
    (some "http://localhost:8000")).1 (by decide) (by decide) rfl

/-! ## Claims about the `pypirc` resolver -/

/-- C7: reading the declared index servers: an absent `distutils` section
yields the empty sequence rather than an error; a present `distutils`
section without the `index-servers` option fails with `NoOptionError`;
otherwise the value is split on whitespace with blank entries skipped,
and whitespace-joined nonblank entries are returned exactly in their
declared order. -/
theorem read_index_servers_behavior (doc : ConfigDoc)
    (opts : List (String × String)) (v : String) :
    (findSection doc "distutils" = none →
      pypirc.read_index_servers doc = Except.ok []) ∧
    (findSection doc "distutils" = some opts →
      List.lookup "index-servers" opts = none →
      pypirc.read_index_servers doc =
        Except.error (PyError.noOption "distutils" "index-servers")) ∧
    (findSection doc "distutils" = some opts →
      List.lookup "index-servers" opts = some v →
      pypirc.read_index_servers doc = Except.ok (pySplit v) ∧
      ∀ t ∈ pySplit v, t ≠ "") ∧
    (∀ ts : List String,
      (∀ t ∈ ts, t ≠ "" ∧ ∀ ch ∈ t.data, ch.isWhitespace = false) →
      pySplit (joinTokens ts) = ts) := by
  refine ⟨?_, ?_, ?_, pySplit_joinTokens⟩
  · intro h1
    simp [pypirc.read_index_servers, h1]
  · intro h1 h2
    simp [pypirc.read_index_servers, h1, h2]
  · intro h1 h2
    refine ⟨by simp [pypirc.read_index_servers, h1, h2], ?_⟩
    exact fun t ht => pySplitAux_ne_blank v.data [] t ht

/-- The `.pypirc` document of the repository's test suite. -/
def testDoc : ConfigDoc :=
  [("distutils", [("index-servers", "\n  pypi\n\n  internal\n  external")]),
   ("pypi", [("username", "foo"), ("password", "bar")]),
   ("internal", [("repository", "http://127.0.0.1:8000"), ("username", "bar"),
                 ("password", "foo")]),
   ("external", [("repository", "https://foo.bar.com/"), ("username", "baz")])]

/-- Witness for C7 at the test suite's config document. -/
theorem read_index_servers_behavior_witness :
    pypirc.read_index_servers testDoc =
      Except.ok ["pypi", "internal", "external"] := by
  rw [((read_index_servers_behavior testDoc
      [("index-servers", "\n  pypi\n\n  internal\n  external")]
      "\n  pypi\n\n  internal\n  external").2.2.1 rfl rfl).1]
  rfl

/-- One declared server's RepositoryConfig dict. -/
theorem buildRepoConfig_eq (doc : ConfigDoc) (s rep user : String)
    (hrep : configGet doc s "repository" = Except.ok rep)
    (huser : configGet doc s "username" = Except.ok user) :
    pypirc.buildRepoConfig doc s = Except.ok
      [("repository", some rep), ("username", some user),
       ("password", (findSection doc s).bind (List.lookup "password"))] := by
  simp only [pypirc.buildRepoConfig, pypirc.read_server_auth]
  rw [hrep, huser]
  rfl

/-- The reverse-URL scan yields nothing when no declared server's
`repository` value matches. -/
theorem scanRepos_none (doc : ConfigDoc) (R : String) (l : List String)
    (h : ∀ s ∈ l, ∃ v, configGet doc s "repository" = Except.ok v ∧ v ≠ R) :
    pypirc.scanRepos doc R l = Except.ok none := by
  induction l with
  | nil => rfl
  | cons s rest ih =>
    obtain ⟨v, hv, hne⟩ := h s (by simp)
    simp only [pypirc.scanRepos]
    rw [hv, ok_bind, if_neg hne]
    exact ih (fun x hx => h x (by simp [hx]))

/-- The reverse-URL scan finds the first declared server whose
`repository` value matches. -/
theorem scanRepos_found (doc : ConfigDoc) (R : String) (pre : List String)
    (s : String) (post : List String)
    (hpre : ∀ x ∈ pre, ∃ v, configGet doc x "repository" = Except.ok v ∧ v ≠ R)
    (hs : configGet doc s "repository" = Except.ok R) :
    pypirc.scanRepos doc R (pre ++ s :: post) = Except.ok (some s) := by
  induction pre with
  | nil =>
    simp only [List.nil_append, pypirc.scanRepos]
    rw [hs, ok_bind, if_pos rfl]
  | cons x pre ih =>
    obtain ⟨v, hv, hne⟩ := hpre x (by simp)
    simp only [List.cons_append, pypirc.scanRepos]
    rw [hv, ok_bind, if_neg hne]
    exact ih (fun y hy => hpre y (by simp [hy]))

/-- C5: resolution of a repository identifier R against the declared
servers: a declared name match returns that server's section values; with
no name match, a declared server whose `repository` value equals R (after
any number of non-matching declared servers) is returned; with neither,
the result is absent. -/
theorem get_repository_config_resolution (doc : ConfigDoc)
    (servers : List String) (R rep user : String) (pre post : List String)
    (s : String)
    (hs : pypirc.read_index_servers doc = Except.ok servers) :
    (R ∈ servers → configGet doc R "repository" = Except.ok rep →
      configGet doc R "username" = Except.ok user →
      pypirc.get_repository_config doc R = Except.ok (some
        [("repository", some rep), ("username", some user),
         ("password", (findSection doc R).bind (List.lookup "password"))])) ∧
    (R ∉ servers → servers = pre ++ s :: post →
      (∀ x ∈ pre, ∃ v, configGet doc x "repository" = Except.ok v ∧ v ≠ R) →
      configGet doc s "repository" = Except.ok R →
      configGet doc s "username" = Except.ok user →
      pypirc.get_repository_config doc R = Except.ok (some
        [("repository", some R), ("username", some user),
         ("password", (findSection doc s).bind (List.lookup "password"))])) ∧
    (R ∉ servers →
      (∀ x ∈ servers, ∃ v, configGet doc x "repository" = Except.ok v ∧ v ≠ R) →
      pypirc.get_repository_config doc R = Except.ok none) := by
  refine ⟨?_, ?_, ?_⟩
  · intro hmem hrep huser
    simp only [pypirc.get_repository_config]
    rw [hs, ok_bind]
    simp only [pypirc.find_repo_config]
    rw [if_pos hmem, buildRepoConfig_eq doc R rep user hrep huser, ok_bind]
  · intro hmem hdecomp hpre hsrep hsuser
    simp only [pypirc.get_repository_config]
    rw [hs, ok_bind]
    simp only [pypirc.find_repo_config]
    rw [if_neg hmem, hdecomp, scanRepos_found doc R pre s post hpre hsrep,
      ok_bind]
    show (do
      let config ← pypirc.buildRepoConfig doc s
      Except.ok (some config)) = _
    rw [buildRepoConfig_eq doc s R user hsrep hsuser, ok_bind]
  · intro hmem hall
    simp only [pypirc.get_repository_config]
    rw [hs, ok_bind]
    simp only [pypirc.find_repo_config]
    rw [if_neg hmem, scanRepos_none doc R servers hall, ok_bind]

/-- Witness for C5: the name `internal` resolves to its section in the
test suite's config document. -/
theorem get_repository_config_resolution_witness :
    pypirc.get_repository_config testDoc "internal" = Except.ok (some
      [("repository", some "http://127.0.0.1:8000"), ("username", some "bar"),
       ("password", some "foo")]) :=
  by rw [((get_repository_config_resolution testDoc
      ["pypi", "internal", "external"]
      "internal" "http://127.0.0.1:8000" "bar" [] [] ""
      rfl).1 (by decide) rfl rfl)]
     rfl

/-! ## Claims about `PackageUploader.from_rc_file` -/

/-- C6: a missing config file (`ConfigFileError`) or an absent resolution
both fall back to the repository identifier as the literal host with
exactly the explicit credentials; an error raised while resolving inside
a parsed config file is not caught and propagates. -/
theorem from_rc_file_fallback (doc : ConfigDoc) (path R : String)
    (u w : Option String) (e : PyError) :
    (PackageUploader.from_rc_file (Except.error (PyError.configFileError path))
        R u w = Except.ok (PackageUploader.init (some R) u w)) ∧
    (pypirc.get_repository_config doc R = Except.ok none →
      PackageUploader.from_rc_file (Except.ok doc) R u w =
        Except.ok (PackageUploader.init (some R) u w)) ∧
    (pypirc.get_repository_config doc R = Except.error e →
      PackageUploader.from_rc_file (Except.ok doc) R u w = Except.error e) := by
  refine ⟨rfl, ?_, ?_⟩
  · intro h
    simp only [PackageUploader.from_rc_file]
    rw [h, ok_bind]
    rfl
  · intro h
    simp only [PackageUploader.from_rc_file]
    rw [h, error_bind]

/-- Witness for C6: resolving `internal` against a config document whose
declared servers do not include it and whose values do not match it. -/
theorem from_rc_file_fallback_witness :
    PackageUploader.from_rc_file
      (Except.ok [("distutils", [("index-servers", "external")]),
        ("external", [("repository", "https://foo.bar.com/"),
                      ("username", "baz")])])
      "http://localhost:8000" (some "u") none =
      Except.ok (PackageUploader.init (some "http://localhost:8000")
        (some "u") none) :=
  (from_rc_file_fallback
      [("distutils", [("index-servers", "external")]),
       ("external", [("repository", "https://foo.bar.com/"),
                     ("username", "baz")])]
      "/root/.pypirc" "http://localhost:8000" (some "u") none
      (PyError.keyError "")).2.1 rfl

/-! ## Claims about the batch command -/

/-- An upload outcome that aborts a batch: only a raised HTTP error (a
`PackageConflictError` and a normal return both let the batch continue). -/
def isFatal : UploadResult → Bool
  | .httpError _ _ => true
  | _ => false

/-- The messages a batch prints for a list of files, two per file. -/
def batchOutput (res : String → UploadResult) : List String → List String
  | [] => []
  | f :: rest => (Command.upload_file res f).1 ++ batchOutput res rest

/-- A non-fatal outcome propagates no error from `_upload_file`. -/
theorem upload_file_not_fatal (res : String → UploadResult) (f : String)
    (h : isFatal (res f) = false) :
    ∃ msgs, Command.upload_file res f = (msgs, none) := by
  cases hres : res f with
  | success r =>
    exact ⟨["Uploading " ++ f ++ "... ", "success.\n"],
      by simp [Command.upload_file, hres]⟩
  | conflict m =>
    exact ⟨["Uploading " ++ f ++ "... ", "already uploaded.\n"],
      by simp [Command.upload_file, hres]⟩
  | httpError s r => rw [hres] at h; simp [isFatal] at h

/-- A batch of files with no fatal outcome attempts every file in order. -/
theorem uploadLoop_all_ok (res : String → UploadResult) (files : List String)
    (h : ∀ f ∈ files, isFatal (res f) = false) :
    Command.uploadLoop res files = ⟨batchOutput res files, files, none⟩ := by
  induction files with
  | nil => rfl
  | cons f rest ih =>
    obtain ⟨msgs, hf⟩ := upload_file_not_fatal res f (h f (by simp))
    simp only [Command.uploadLoop, hf]
    rw [ih (fun x hx => h x (by simp [hx]))]
    simp [batchOutput, hf]

/-- A fatal outcome stops the batch right after its own heading. -/
theorem uploadLoop_abort (res : String → UploadResult) (pre : List String)
    (y : String) (post : List String) (status : Nat) (reason : String)
    (hpre : ∀ f ∈ pre, isFatal (res f) = false)
    (hy : res y = UploadResult.httpError status reason) :
    Command.uploadLoop res (pre ++ y :: post) =
      ⟨batchOutput res pre ++ ["Uploading " ++ y ++ "... "], pre ++ [y],
       some (status, reason)⟩ := by
  induction pre with
  | nil =>
    simp only [List.nil_append, Command.uploadLoop, Command.upload_file, hy]
    simp [batchOutput]
  | cons x pre ih =>
    obtain ⟨msgs, hx⟩ := upload_file_not_fatal res x (hpre x (by simp))
    simp only [List.cons_append, Command.uploadLoop, hx]
    simp only [List.append_eq]
    rw [ih (fun g hg => hpre g (by simp [hg]))]
    simp [batchOutput, hx]

/-- C8: the batch command processes files one at a time in the given
order; a `PackageConflictError` is reported as `already uploaded.` and
the batch continues, so a batch with no fatal outcome attempts every file
in order; any other error aborts the remaining batch right away and
propagates. -/
theorem batch_upload_behavior (host : Option String)
    (res : String → UploadResult) (files pre post : List String)
    (y f m : String) (status : Nat) (reason : String) :
    (res f = UploadResult.conflict m →
      Command.upload_file res f =
        (["Uploading " ++ f ++ "... ", "already uploaded.\n"], none)) ∧
    ((∀ g ∈ files, isFatal (res g) = false) →
      Command.upload_files host res files =
        ⟨("Uploading packages to " ++ pyStr host ++ "\n") ::
           batchOutput res files, files, none⟩) ∧
    ((∀ g ∈ pre, isFatal (res g) = false) →
      res y = UploadResult.httpError status reason →
      Command.upload_files host res (pre ++ y :: post) =
        ⟨("Uploading packages to " ++ pyStr host ++ "\n") ::
           (batchOutput res pre ++ ["Uploading " ++ y ++ "... "]),
         pre ++ [y], some (status, reason)⟩) := by
  refine ⟨?_, ?_, ?_⟩
  · intro h
    simp [Command.upload_file, h]
  · intro h
    simp only [Command.upload_files]
    rw [uploadLoop_all_ok res files h]
  · intro h1 h2
    simp only [Command.upload_files]
    rw [uploadLoop_abort res pre y post status reason h1 h2]

/-- Witness for C8: the spec's end-to-end scenario — the server answers
409 for the first file and 200 for the second; the batch reports the
first as already uploaded and proceeds to succeed on the second, in that
order. -/
theorem batch_upload_behavior_witness :
    Command.upload_files (some "http://h")
      (fun g => if g = "a-1.0.tar.gz"
        then UploadResult.conflict "Package a-1.0.tar.gz already uploaded."
        else UploadResult.success ⟨200, "OK"⟩)
      ["a-1.0.tar.gz", "b-1.0.tar.gz"] =
      ⟨["Uploading packages to http://h\n",
        "Uploading a-1.0.tar.gz... ", "already uploaded.\n",
        "Uploading b-1.0.tar.gz... ", "success.\n"],
       ["a-1.0.tar.gz", "b-1.0.tar.gz"], none⟩ :=
  ((batch_upload_behavior (some "http://h")
      (fun g => if g = "a-1.0.tar.gz"
        then UploadResult.conflict "Package a-1.0.tar.gz already uploaded."
        else UploadResult.success ⟨200, "OK"⟩)
      ["a-1.0.tar.gz", "b-1.0.tar.gz"] [] [] "" "" "" 0 "").2.1
    (by decide)).trans (by decide)
